import Mathlib

/-!
Verification of the export-job pipeline and 2FA/auth subsystem of the
`outlier` backend (`server-python`), as a shallow embedding in Lean 4.

Time is modelled as a natural number of seconds of wall-clock time
(`datetime.utcnow()` / `datetime.now()` in the source); 15 minutes = 900,
30 minutes = 1800, 5 minutes = 300, 24 hours = 86400.
-/

namespace Outlier

/-! ## Export job data model (`src/models/export_job.py`) -/

/-- Status enum `ExportStatus` from `models/export_job.py`. -/
inductive ExportStatus
  | pending
  | processing
  | completed
  | failed
  | cancelled
deriving DecidableEq, Repr

/-- One entry appended by `ExportJob.update_progress` to
`export_config['progress_messages']`: (timestamp, raw progress argument,
message). -/
structure ProgressMsg where
  timestamp : Nat
  progress : Int
  message : String
deriving DecidableEq, Repr

/-- The `ExportJob` row from `models/export_job.py`, restricted to the fields
the core mutates.  `progress` is a Python `int` (clamping happens in
`update_progress`), hence `Int`. -/
structure ExportJob where
  id : String
  userId : Nat
  analysisId : String
  format : String
  status : ExportStatus
  progress : Int
  filename : Option String
  filePath : Option String
  fileSize : Option Nat
  mimeType : Option String
  errorMessage : Option String
  retryCount : Nat
  maxRetries : Nat
  createdAt : Nat
  startedAt : Option Nat
  completedAt : Option Nat
  expiresAt : Option Nat
  progressMessages : List ProgressMsg
deriving DecidableEq, Repr

/-- `ExportJob.can_retry`: status is failed and retry budget remains. -/
def ExportJob.can_retry (j : ExportJob) : Bool :=
  j.status == .failed && j.retryCount < j.maxRetries

/-- `ExportJob.is_expired`: `expires_at` set and strictly in the past. -/
def ExportJob.is_expired (j : ExportJob) (now : Nat) : Bool :=
  match j.expiresAt with
  | some t => t < now
  | none => false

/-- `ExportJob.mark_started`: sets processing, `started_at = now`,
`progress = 0`. -/
def ExportJob.mark_started (j : ExportJob) (now : Nat) : ExportJob :=
  { j with status := .processing, startedAt := some now, progress := 0 }

/-- `ExportJob.mark_completed`: sets completed, `completed_at = now`,
`progress = 100`, stores `file_path` and `file_size`; `filename` only when a
truthy value is supplied. -/
def ExportJob.mark_completed (j : ExportJob) (now : Nat) (file_path : String)
    (file_size : Option Nat) (fname : Option String) : ExportJob :=
  let j := { j with status := .completed, completedAt := some now,
                    progress := 100, filePath := some file_path,
                    fileSize := file_size }
  match fname with
  | some f => { j with filename := some f }
  | none => j

/-- `ExportJob.mark_failed`: sets failed, stores the error, `progress = 100`;
then, with `can_retry` flag set and budget remaining (checked after the status
assignment, as in the source), increments `retry_count`, otherwise sets
`completed_at = now` (terminal). -/
def ExportJob.mark_failed (j : ExportJob) (now : Nat) (error_message : String)
    (can_retry_flag : Bool) : ExportJob :=
  let j := { j with status := .failed, errorMessage := some error_message,
                    progress := 100 }
  if can_retry_flag && j.can_retry then
    { j with retryCount := j.retryCount + 1 }
  else
    { j with completedAt := some now }

/-- `ExportJob.update_progress`: clamps to [0, 100] via
`min(100, max(0, progress))`; a truthy message is appended to the progress
log with the raw (unclamped) progress value. -/
def ExportJob.update_progress (j : ExportJob) (progress : Int)
    (message : Option String) (now : Nat) : ExportJob :=
  let j := { j with progress := min 100 (max 0 progress) }
  match message with
  | some m =>
      if m.length ≠ 0 then
        { j with progressMessages :=
            j.progressMessages ++ [⟨now, progress, m⟩] }
      else j
  | none => j

/-! ## Export repository (`src/repositories/export_repository.py`)

Each repository method looks the job up by id, applies the mutation and
commits.  The per-job mutation logic is embedded below; the id lookup is
modelled by operating on the (found) job, and on `Option ExportJob` where a
claim is about the `job | null` return contract. -/

/-- `ExportRepository.create_export_job` together with the column defaults of
`models/export_job.py` (`status=pending`, `progress=0`, `retry_count=0`,
`max_retries=3`) and the `__init__` default `expires_at = now + 24h`. -/
def create_export_job (job_id : String) (user_id : Nat) (analysis_id : String)
    (format_type : String) (now : Nat) : ExportJob :=
  { id := job_id, userId := user_id, analysisId := analysis_id,
    format := format_type, status := .pending, progress := 0,
    filename := none, filePath := none, fileSize := none, mimeType := none,
    errorMessage := none, retryCount := 0, maxRetries := 3, createdAt := now,
    startedAt := none, completedAt := none, expiresAt := some (now + 86400),
    progressMessages := [] }

/-- `ExportRepository.update_job_status`: unconditionally overwrites the
status; `progress` only when the argument is not `None`; `error_message` only
when truthy; then fills `started_at` / `completed_at` if still unset. -/
def update_job_status (j : ExportJob) (status : ExportStatus)
    (progress : Option Int) (error_message : Option String) (now : Nat) :
    ExportJob :=
  let j := { j with status := status }
  let j := match progress with
           | some p => { j with progress := p }
           | none => j
  let j := match error_message with
           | some e => if e.length ≠ 0 then { j with errorMessage := some e }
                       else j
           | none => j
  if status == .processing && j.startedAt == none then
    { j with startedAt := some now }
  else if (status == .completed || status == .failed) && j.completedAt == none then
    { j with completedAt := some now }
  else j

/-- `ExportRepository.mark_job_completed`: `job.mark_completed(...)`, then a
truthy `mime_type` argument is stored. -/
def mark_job_completed (j : ExportJob) (now : Nat) (file_path : String)
    (file_size : Option Nat) (fname : Option String)
    (mime_type : Option String) : ExportJob :=
  let j := j.mark_completed now file_path file_size fname
  match mime_type with
  | some m => if m.length ≠ 0 then { j with mimeType := some m } else j
  | none => j

/-- `ExportRepository.retry_job` on a found job: only when `can_retry()`,
resets to pending / progress 0, clears error and both timestamps, sets
`expires_at = now + 24h`, leaves `retry_count` untouched; otherwise the job is
returned unchanged. -/
def retry_job (j : ExportJob) (now : Nat) : ExportJob :=
  if j.can_retry then
    { j with status := .pending, errorMessage := none, progress := 0,
             startedAt := none, completedAt := none,
             expiresAt := some (now + 86400) }
  else j

/-- The cancellation transition of `ExportRepository.cancel_job` on a found,
ownership-cleared job: only a pending or processing job is moved to
cancelled / `completed_at = now` / progress 100; any other status leaves the
job unchanged. -/
def ExportJob.cancelTransition (j : ExportJob) (now : Nat) : ExportJob :=
  if j.status == .pending || j.status == .processing then
    { j with status := .cancelled, completedAt := some now, progress := 100 }
  else j

/-- `ExportRepository.cancel_job` with its full `job | null` contract:
`None` when the job is missing; `None` when a truthy `user_id` (Python
truthiness: not `None` and nonzero) mismatches the owner; otherwise the
(possibly unchanged) job. -/
def cancel_job (j : Option ExportJob) (user_id : Option Nat) (now : Nat) :
    Option ExportJob :=
  match j with
  | none => none
  | some job =>
    match user_id with
    | some u =>
        if u != 0 && job.userId != u then none
        else some (job.cancelTransition now)
    | none => some (job.cancelTransition now)

/-! ## Store operations as a step relation, for the per-job invariant -/

/-- One repository operation applied to a single job, covering the mutators of
`ExportRepository` (`mark_job_started`, `update_job_progress`,
`mark_job_completed`, `mark_job_failed`, `retry_job`, `cancel_job`,
`update_job_status`). -/
inductive StoreOp
  | markStarted (now : Nat)
  | updateProgress (progress : Int) (message : Option String) (now : Nat)
  | markCompleted (now : Nat) (file_path : String) (file_size : Option Nat)
      (fname : Option String) (mime_type : Option String)
  | markFailed (now : Nat) (error_message : String) (can_retry_flag : Bool)
  | retry (now : Nat)
  | cancel (now : Nat) (user_id : Option Nat)
  | updateStatus (status : ExportStatus) (progress : Option Int)
      (error_message : Option String) (now : Nat)
deriving DecidableEq, Repr

/-- Effect of one repository operation on a (found) job, from the repository
code above.  For `cancel`, a failed ownership check returns `None` and leaves
the job record unchanged. -/
def applyOp (j : ExportJob) : StoreOp → ExportJob
  | .markStarted now => j.mark_started now
  | .updateProgress p m now => j.update_progress p m now
  | .markCompleted now fp fs fn mt => mark_job_completed j now fp fs fn mt
  | .markFailed now e c => j.mark_failed now e c
  | .retry now => retry_job j now
  | .cancel now uid =>
      match cancel_job (some j) uid now with
      | some j2 => j2
      | none => j
  | .updateStatus st p e now => update_job_status j st p e now

/-- Folding a sequence of repository operations over a job. -/
def applyOps (j : ExportJob) (ops : List StoreOp) : ExportJob :=
  ops.foldl applyOp j

/-- The spec's terminal statuses: completed, failed, cancelled. -/
def ExportStatus.isTerminal : ExportStatus → Bool
  | .completed => true
  | .failed => true
  | .cancelled => true
  | _ => false

/-- The spec's export-job invariant: terminal status forces progress 100. -/
def progressInvariant (j : ExportJob) : Bool :=
  !j.status.isTerminal || j.progress == 100

/-- The dedicated lifecycle transitions (everything except the raw setters
`update_job_progress` and `update_job_status`). -/
def StoreOp.isDedicated : StoreOp → Bool
  | .updateProgress _ _ _ => false
  | .updateStatus _ _ _ _ => false
  | _ => true

/-! ## Crypto layer (`src/utils/crypto_utils.py`, `two_factor_service.py`)

The repository encrypts 2FA secrets and backup codes with `cryptography`'s
Fernet (authenticated symmetric encryption), which is library code outside
this repository. -/

/-- Decryption failure (`cryptography.fernet.InvalidToken`, surfaced by the
spec as `CryptoError`). -/
inductive CryptoError
  | invalidToken
deriving DecidableEq, Repr

/-- Modelled from the spec: Fernet authenticated symmetric encryption
(`cryptography.fernet.Fernet`, external library code not under `src/`),
per §4.1: confidentiality + integrity, decryption fails with `CryptoError`
on wrong-key input.  A token is an ideal authenticated ciphertext recording
the key it was produced under. -/
inductive Fernet (α : Type)
  | token (key : String) (plain : α)
deriving DecidableEq, Repr

/-- Modelled from the spec: Fernet decryption, succeeding exactly under the
key the token was encrypted with (wrong-key/tampered input fails the HMAC
check and raises `InvalidToken`). -/
def Fernet.decrypt (key : String) : Fernet α → Except CryptoError α
  | .token k d => if k = key then .ok d else .error .invalidToken

/-- `CryptoUtils.encrypt_data`: Fernet-encrypt under `key` (the urlsafe
base64 wrapping of the token bytes is a bijective transport encoding and is
modelled as the identity). -/
def CryptoUtils.encrypt_data (data : String) (key : String) : Fernet String :=
  .token key data

/-- `CryptoUtils.decrypt_data`: base64-decode and Fernet-decrypt under
`key`; a wrong key propagates `InvalidToken` (the function catches
nothing). -/
def CryptoUtils.decrypt_data (c : Fernet String) (key : String) :
    Except CryptoError String :=
  c.decrypt key

/-! ## Two-factor service (`src/services/two_factor_service.py`)

The service holds one process-wide Fernet key (`self.encryption_key`,
modelled as the `svcKey` argument), a rate-limit dictionary
`self.rate_limit_storage` keyed per user, and uses `pyotp` for TOTP checks.
`pyotp.TOTP(secret).verify(code, valid_window=1)` is external library code
and is abstracted as an oracle `totpOk : secret → code → now → Bool`. -/

/-- One value of `rate_limit_storage`: `(attempts, last_attempt)`. -/
structure RateEntry where
  attempts : Nat
  lastAttempt : Nat
deriving DecidableEq, Repr

/-- The per-user rate-limit dictionary, keyed by user id. -/
def RLStore : Type := Nat → Option RateEntry

/-- Dictionary update (assignment / `del`) at one key. -/
def RLStore.set (s : RLStore) (uid : Nat) (e : Option RateEntry) : RLStore :=
  fun v => if v = uid then e else s v

/-- The empty rate-limit dictionary. -/
def RLStore.empty : RLStore := fun _ => none

/-- `TwoFactorService.is_rate_limited`: no entry means not limited; an entry
older than 15 minutes (measured from its `last_attempt`) is deleted and the
user is not limited; otherwise limited iff `attempts >= 5`.  The deletion is
a side effect, so the updated dictionary is returned alongside the answer. -/
def is_rate_limited (s : RLStore) (uid : Nat) (now : Nat) : Bool × RLStore :=
  match s uid with
  | none => (false, s)
  | some e =>
      if now - e.lastAttempt > 900 then (false, s.set uid none)
      else (decide (e.attempts ≥ 5), s)

/-- `TwoFactorService.increment_rate_limit`: bump the attempt count and stamp
the entry with the current time (the stamp is the time of the LAST attempt,
not the first of the streak). -/
def increment_rate_limit (s : RLStore) (uid : Nat) (now : Nat) : RLStore :=
  match s uid with
  | some e => s.set uid (some ⟨e.attempts + 1, now⟩)
  | none => s.set uid (some ⟨1, now⟩)

/-- `TwoFactorService.reset_rate_limit`: delete the user's entry. -/
def reset_rate_limit (s : RLStore) (uid : Nat) : RLStore :=
  s.set uid none

/-- The user record, covering the auth-relevant fields of the `USERS` dict in
`auth_service.py` (equally the fields the `MockUser` adapter copies for
`TwoFactorService`): 2FA fields, failed-login counter and lock. -/
structure UserRec where
  id : Nat
  username : String
  twoFactorEnabled : Bool
  twoFactorSecret : Option (Fernet String)
  backupCodes : Option (Fernet (List String))
  backupCodesUsed : List String
  failedLoginAttempts : Nat
  lockedUntil : Option Nat
deriving DecidableEq, Repr

/-- `TwoFactorService.decrypt_backup_codes`: falsy input yields `[]`, else
decrypt (JSON decoding of the code list is modelled inside the token). -/
def decrypt_backup_codes (svcKey : String) :
    Option (Fernet (List String)) → Except CryptoError (List String)
  | none => .ok []
  | some c =>
      match c.decrypt svcKey with
      | .ok l => .ok l
      | .error e => .error e

/-- Outcome of `TwoFactorService.verify_two_factor`: a returned boolean, or a
raised error (`ValueError` for not-enabled / rate-limited, a generic failure
when decryption throws). -/
inductive TFOutcome
  | ok (b : Bool)
  | notEnabled
  | rateLimited
  | cryptoFailure
deriving DecidableEq, Repr

/-- `TwoFactorService.verify_two_factor`: not-enabled check, rate-limit check
(whose lazy expiry deletion persists), TOTP attempt, then backup-code attempt
against the decrypted list minus the used ones; a backup-code hit is appended
to the used list and resets the rate limit, any miss increments it.  Returns
the outcome with the resulting user record and rate-limit dictionary (the
mutations that survive a raise, as in the Python object state). -/
def verify_two_factor (svcKey : String)
    (totpOk : String → String → Nat → Bool) (u : UserRec) (s : RLStore)
    (now : Nat) (code : String) : TFOutcome × UserRec × RLStore :=
  if !u.twoFactorEnabled || u.twoFactorSecret.isNone then (.notEnabled, u, s)
  else
    let rl := is_rate_limited s u.id now
    if rl.1 then (.rateLimited, u, rl.2)
    else
      match u.twoFactorSecret with
      | none => (.notEnabled, u, rl.2)
      | some encSecret =>
          match encSecret.decrypt svcKey with
          | .error _ => (.cryptoFailure, u, rl.2)
          | .ok secret =>
              if totpOk secret code now then
                (.ok true, u, reset_rate_limit rl.2 u.id)
              else
                match decrypt_backup_codes svcKey u.backupCodes with
                | .error _ => (.cryptoFailure, u, rl.2)
                | .ok codes =>
                    if code ∈ codes ∧ code ∉ u.backupCodesUsed then
                      (.ok true,
                       { u with backupCodesUsed := u.backupCodesUsed ++ [code] },
                       reset_rate_limit rl.2 u.id)
                    else
                      (.ok false, u, increment_rate_limit rl.2 u.id now)

/-! ## Auth service (`src/services/auth_service.py`)

`bcrypt` / legacy SHA-256 password verification is external library code; a
login attempt carries its boolean result as `pwOk`.  The module-level
`PENDING_2FA` and `USERS` dictionaries are modelled as finite maps; fresh
`secrets.token_urlsafe(32)` session ids enter as a parameter. -/

/-- One `PENDING_2FA` entry: user id, username, expiry (creation + 5 min). -/
structure PendingSession where
  userId : Nat
  username : String
  expiresAt : Nat
deriving DecidableEq, Repr

/-- The `PENDING_2FA` dictionary, keyed by session id. -/
def PendStore : Type := String → Option PendingSession

/-- Dictionary update (assignment / `del`) at one session id. -/
def PendStore.set (p : PendStore) (sid : String) (e : Option PendingSession) :
    PendStore :=
  fun v => if v = sid then e else p v

/-- The empty pending-session dictionary. -/
def PendStore.empty : PendStore := fun _ => none

/-- The `USERS` dictionary, keyed by username. -/
def UserStore : Type := String → Option UserRec

/-- Dictionary update at one username. -/
def UserStore.set (m : UserStore) (name : String) (e : Option UserRec) :
    UserStore :=
  fun v => if v = name then e else m v

/-- `AuthService.is_account_locked`: `lockedUntil` set and strictly in the
future. -/
def is_account_locked (u : UserRec) (now : Nat) : Bool :=
  match u.lockedUntil with
  | some t => decide (t > now)
  | none => false

/-- `AuthService.increment_failed_login`: bump the counter; at 5 or more the
account is locked for 30 minutes from now. -/
def increment_failed_login (u : UserRec) (now : Nat) : UserRec :=
  let u := { u with failedLoginAttempts := u.failedLoginAttempts + 1 }
  if u.failedLoginAttempts ≥ 5 then { u with lockedUntil := some (now + 1800) }
  else u

/-- `AuthService.reset_failed_login`: clear the counter and the lock. -/
def reset_failed_login (u : UserRec) : UserRec :=
  { u with failedLoginAttempts := 0, lockedUntil := none }

/-- `AuthService.verify_2fa_code`: adapts the user to the two-factor service
and calls `verify_two_factor`, catching EVERY exception and returning
`False` — a raised rate-limit (or not-enabled, or crypto) error is collapsed
into a plain failed verification.  The used-backup-codes copy-back only
happens on the no-exception path. -/
def verify_2fa_code (svcKey : String)
    (totpOk : String → String → Nat → Bool) (u : UserRec) (s : RLStore)
    (now : Nat) (code : String) : Bool × UserRec × RLStore :=
  match verify_two_factor svcKey totpOk u s now code with
  | (.ok b, u2, s2) => (b, u2, s2)
  | (_, _, s2) => (false, u, s2)

/-- Errors raised by `AuthService.login_user` (each a `ValueError` with the
quoted message). -/
inductive LoginError
  | invalidCredentials
  | accountLocked
  | invalidTwoFactorCode
deriving DecidableEq, Repr

/-- Successful results of `AuthService.login_user`. -/
inductive LoginOk
  | requiresTwoFactor (sessionId : String)
  | authenticated (is2faVerified : Bool)
deriving DecidableEq, Repr

/-- `AuthService.login_user` on a found user: lock check, password check
(failure increments the counter), then the 2FA branch — without a code a
pending session is stored under a fresh id, with a code `verify_2fa_code`
decides (failure increments the counter) — and finally counters reset and
tokens issued.  Returns the result together with the updated user record,
rate-limit dictionary and pending-session dictionary. -/
def login_user (svcKey : String) (totpOk : String → String → Nat → Bool)
    (pwOk : Bool) (u : UserRec) (s : RLStore) (p : PendStore)
    (freshSid : String) (now : Nat) (totpCode : Option String) :
    Except LoginError LoginOk × UserRec × RLStore × PendStore :=
  if is_account_locked u now then (.error .accountLocked, u, s, p)
  else if !pwOk then
    (.error .invalidCredentials, increment_failed_login u now, s, p)
  else if u.twoFactorEnabled then
    match totpCode with
    | none =>
        (.ok (.requiresTwoFactor freshSid), u, s,
         p.set freshSid (some ⟨u.id, u.username, now + 300⟩))
    | some code =>
        let (b, u2, s2) := verify_2fa_code svcKey totpOk u s now code
        if !b then
          (.error .invalidTwoFactorCode, increment_failed_login u2 now, s2, p)
        else
          (.ok (.authenticated true), reset_failed_login u2, s2, p)
  else
    (.ok (.authenticated true), reset_failed_login u, s, p)

/-- Errors raised by `AuthService.complete_2fa_login`. -/
inductive CompleteError
  | invalidSession
  | sessionExpired
  | userNotFound
  | invalidTwoFactorCode
deriving DecidableEq, Repr

/-- `AuthService.complete_2fa_login`: session lookup, lazy expiry check
(expired sessions are deleted), user lookup by the session's username
(missing users delete the session), then `verify_2fa_code` — an invalid code
increments the failed-login counter and LEAVES the session entry in place; a
valid code deletes the session and resets the counters.  Returns the result
with the updated `USERS`, `PENDING_2FA` and rate-limit dictionaries. -/
def complete_2fa_login (svcKey : String)
    (totpOk : String → String → Nat → Bool) (users : UserStore)
    (p : PendStore) (s : RLStore) (now : Nat) (sid : String) (code : String) :
    Except CompleteError Unit × UserStore × PendStore × RLStore :=
  match p sid with
  | none => (.error .invalidSession, users, p, s)
  | some sess =>
      if now > sess.expiresAt then
        (.error .sessionExpired, users, p.set sid none, s)
      else
        match users sess.username with
        | none => (.error .userNotFound, users, p.set sid none, s)
        | some u =>
            let (b, u2, s2) := verify_2fa_code svcKey totpOk u s now code
            if !b then
              (.error .invalidTwoFactorCode,
               users.set sess.username (some (increment_failed_login u2 now)),
               p, s2)
            else
              (.ok (), users.set sess.username (some (reset_failed_login u2)),
               p.set sid none, s2)

/-! ## Claim C7: encrypt/decrypt round trip -/

/-- Claim C7: for every plaintext `x` and key `k`,
`decrypt_data(encrypt_data(x, k), k)` returns `x`; decrypting with any other
key `k2` fails with `CryptoError` (`InvalidToken`) instead of returning a
value. -/
theorem c7_encrypt_decrypt_roundtrip (x k k2 : String) (hk : k2 ≠ k) :
    CryptoUtils.decrypt_data (CryptoUtils.encrypt_data x k) k = .ok x ∧
    CryptoUtils.decrypt_data (CryptoUtils.encrypt_data x k) k2 =
      .error .invalidToken := by
  refine ⟨by simp [CryptoUtils.decrypt_data, CryptoUtils.encrypt_data,
                   Fernet.decrypt], ?_⟩
  simp [CryptoUtils.decrypt_data, CryptoUtils.encrypt_data, Fernet.decrypt]
  intro h
  exact absurd h.symm hk

/-- Witness for C7 at concrete strings. -/
theorem c7_encrypt_decrypt_roundtrip_witness :
    ("key2" : String) ≠ ("key1" : String) ∧
    (CryptoUtils.decrypt_data (CryptoUtils.encrypt_data ("hello") ("key1"))
        ("key1") = .ok ("hello") ∧
     CryptoUtils.decrypt_data (CryptoUtils.encrypt_data ("hello") ("key1"))
        ("key2") = .error .invalidToken) :=
  ⟨by decide, c7_encrypt_decrypt_roundtrip ("hello") ("key1") ("key2")
    (by decide)⟩

/-! ## Claim C1: cancelled is not a terminal no-op for the worker -/

/-- A fresh job, cancelled by its owner at t = 10. -/
def c1Cancelled : ExportJob :=
  applyOp (create_export_job ("j1") 1 ("a1") ("csv") 0) (.cancel 10 (some 1))

/-- Claim C1 states that `mark_completed` / `mark_failed` on a cancelled job
is a no-op.  The code violates it: both `ExportJob.mark_completed` and
`ExportJob.mark_failed` (and hence the repository wrappers
`mark_job_completed` / `mark_job_failed`) assign the status unconditionally,
so a worker finishing a cancelled job overwrites the cancelled state
(last-writer-wins) — the status becomes completed resp. failed and the
file/error fields are written over the terminal state. -/
theorem c1_cancelled_overwritten :
    c1Cancelled.status = .cancelled ∧ c1Cancelled.progress = 100 ∧
    (applyOp c1Cancelled
        (.markCompleted 20 ("/tmp/x.csv") (some 1024) none none)).status =
      .completed ∧
    (applyOp c1Cancelled
        (.markCompleted 20 ("/tmp/x.csv") (some 1024) none none)).filePath =
      some ("/tmp/x.csv") ∧
    (applyOp c1Cancelled (.markFailed 20 ("boom") true)).status = .failed := by
  decide

/-! ## Claim C2: terminal status forces progress = 100 -/

/-- A fresh job for the C2 counterexample. -/
def c2Job : ExportJob := create_export_job ("j2") 1 ("a1") ("csv") 0

/-- Claim C2 quantifies over every sequence of store operations, including
`update_job_status`.  Counterexample: a single `update_job_status` call that
sets status to completed without supplying a progress value leaves the fresh
job at progress 0, so status is terminal while progress is not 100. -/
theorem c2_counterexample :
    (applyOps c2Job [.updateStatus .completed none none 5]).status =
      .completed ∧
    (applyOps c2Job [.updateStatus .completed none none 5]).progress = 0 ∧
    progressInvariant (applyOps c2Job [.updateStatus .completed none none 5]) =
      false := by
  decide

/-- One dedicated lifecycle transition preserves the progress invariant. -/
theorem applyOp_dedicated_invariant (j : ExportJob) (op : StoreOp)
    (hj : progressInvariant j = true) (hop : op.isDedicated = true) :
    progressInvariant (applyOp j op) = true := by
  cases op with
  | markStarted now =>
      simp [applyOp, ExportJob.mark_started, progressInvariant,
            ExportStatus.isTerminal]
  | updateProgress p m now => simp [StoreOp.isDedicated] at hop
  | markCompleted now fp fs fn mt =>
      cases fn <;> cases mt <;>
        simp only [applyOp, mark_job_completed, ExportJob.mark_completed] <;>
        (try split) <;>
        simp [progressInvariant, ExportStatus.isTerminal]
  | markFailed now e c =>
      simp only [applyOp, ExportJob.mark_failed]
      split <;>
        simp [progressInvariant, ExportStatus.isTerminal]
  | retry now =>
      simp only [applyOp, retry_job]
      split <;>
        simp_all [progressInvariant, ExportStatus.isTerminal]
  | cancel now uid =>
      simp only [applyOp, cancel_job]
      cases uid with
      | none =>
          simp only [ExportJob.cancelTransition]
          split <;> simp_all [progressInvariant, ExportStatus.isTerminal]
      | some v =>
          by_cases hv : (v != 0 && j.userId != v) = true
          · simp_all
          · simp only [hv]
            simp only [ExportJob.cancelTransition, Bool.false_eq_true,
                       if_false]
            split <;>
              simp_all [progressInvariant, ExportStatus.isTerminal]
  | updateStatus st p e now => simp [StoreOp.isDedicated] at hop

/-- Claim C2, amended: the invariant `status ∈ {completed, failed, cancelled}
⇒ progress = 100` is preserved by every sequence of the dedicated lifecycle
transitions (`mark_job_started`, `mark_job_completed`, `mark_job_failed`,
`retry_job`, `cancel_job`); it is NOT preserved by the raw setters
`update_job_status` (status without progress) and `update_job_progress` on a
terminal job, which `c2_counterexample` exhibits. -/
theorem c2_terminal_progress_invariant (j : ExportJob) (ops : List StoreOp)
    (hj : progressInvariant j = true)
    (hops : ∀ op ∈ ops, op.isDedicated = true) :
    progressInvariant (applyOps j ops) = true := by
  induction ops generalizing j with
  | nil => simpa [applyOps] using hj
  | cons op rest ih =>
      have h1 : progressInvariant (applyOp j op) = true :=
        applyOp_dedicated_invariant j op hj (hops op (by simp))
      have h2 : ∀ o ∈ rest, o.isDedicated = true := by
        intro o ho
        exact hops o (by simp [ho])
      simpa [applyOps] using ih (applyOp j op) h1 h2

/-- Witness for the amended C2 on a concrete job and operation sequence. -/
theorem c2_terminal_progress_invariant_witness :
    progressInvariant c2Job = true ∧
    progressInvariant (applyOps c2Job
      [.markStarted 1, .updateProgress 50 none 2, .cancel 3 (some 1)]
        |>.mark_failed 4 ("late") true) = true ∧
    progressInvariant (applyOps c2Job
      [.markStarted 1, .markFailed 2 ("boom") true, .retry 3,
       .markStarted 4, .markCompleted 5 ("/tmp/x.csv") (some 7) none none]) =
      true :=
  ⟨by decide, by decide,
   c2_terminal_progress_invariant c2Job
     [.markStarted 1, .markFailed 2 ("boom") true, .retry 3,
      .markStarted 4, .markCompleted 5 ("/tmp/x.csv") (some 7) none none]
     (by decide) (by decide)⟩

/-! ## Claim C9: the `cancel` return contract -/

/-- A completed job owned by user 1, for the C9 counterexample. -/
def c9Done : ExportJob :=
  applyOps (create_export_job ("j9") 1 ("a9") ("csv") 0)
    [.markStarted 1, .markCompleted 2 ("/tmp/x.csv") (some 10) none none]

/-- Claim C9 states `cancel` returns null whenever the job is already in a
terminal state.  Counterexample: on a completed job (owner matching the
requesting user) `cancel_job` leaves the job unchanged but returns the job
itself, not null. -/
theorem c9_counterexample :
    c9Done.status = .completed ∧ c9Done.userId = 1 ∧
    cancel_job (some c9Done) (some 1) 50 = some c9Done ∧
    cancel_job (some c9Done) (some 1) 50 ≠ none := by
  decide

/-- Claim C9, amended: `cancel_job` transitions a job to cancelled
(status = cancelled, progress = 100, completedAt = now) only when its status
is pending or processing; it returns null when the job is missing and when a
truthy `requestingUserId` does not match the owner; but for a job already in
a terminal state it returns the job unchanged (not null). -/
theorem c9_cancel_contract (j : ExportJob) (ruid : Option Nat) (now : Nat) :
    cancel_job none ruid now = none ∧
    ((∃ v, ruid = some v ∧ v ≠ 0 ∧ j.userId ≠ v) →
        cancel_job (some j) ruid now = none) ∧
    ((¬ ∃ v, ruid = some v ∧ v ≠ 0 ∧ j.userId ≠ v) →
      ((j.status = .pending ∨ j.status = .processing) →
          cancel_job (some j) ruid now =
            some { j with status := .cancelled, completedAt := some now,
                          progress := 100 }) ∧
      (j.status ≠ .pending → j.status ≠ .processing →
          cancel_job (some j) ruid now = some j)) := by
  refine ⟨rfl, ?_, ?_⟩
  · rintro ⟨v, hv, hv0, hvu⟩
    subst hv
    simp [cancel_job, hv0, hvu]
  · intro hno
    have hguard : ∀ v, ruid = some v → ¬ (v ≠ 0 ∧ j.userId ≠ v) := by
      intro v hv hcon
      exact hno ⟨v, hv, hcon.1, hcon.2⟩
    constructor
    · intro hst
      cases hr : ruid with
      | none =>
          simp [cancel_job, ExportJob.cancelTransition, hst]
      | some v =>
          have := hguard v hr
          have hb : (v != 0 && j.userId != v) = false := by
            rcases Decidable.em (v = 0) with h0 | h0
            · simp [h0]
            · have : j.userId = v := by
                by_contra hne
                exact this ⟨h0, hne⟩
              simp [this]
          simp [cancel_job, hb, ExportJob.cancelTransition, hst]
    · intro h1 h2
      have hnt : ¬ (j.status == .pending || j.status == .processing) = true := by
        simp [h1, h2]
      cases hr : ruid with
      | none =>
          simp [cancel_job, ExportJob.cancelTransition, hnt]
      | some v =>
          have := hguard v hr
          have hb : (v != 0 && j.userId != v) = false := by
            rcases Decidable.em (v = 0) with h0 | h0
            · simp [h0]
            · have : j.userId = v := by
                by_contra hne
                exact this ⟨h0, hne⟩
              simp [this]
          simp [cancel_job, hb, ExportJob.cancelTransition, hnt]

/-- Witness for the amended C9: a pending job is cancelled, a completed job is
returned unchanged. -/
theorem c9_cancel_contract_witness :
    cancel_job (some c2Job) none 7 =
      some { c2Job with status := .cancelled, completedAt := some 7,
                        progress := 100 } ∧
    cancel_job (some c9Done) (some 1) 50 = some c9Done :=
  ⟨((c9_cancel_contract c2Job none 7).2.2 (by simp)).1 (by decide),
   ((c9_cancel_contract c9Done (some 1) 50).2.2
       (by rintro ⟨v, hv, hv0, hvu⟩; cases hv; exact hvu (by decide))).2
     (by decide) (by decide)⟩

/-! ## Claim C8: failure/retry bookkeeping -/

/-- Claim C8: on a job with `retryCount = 0`, `maxRetries = 3` and no
`completedAt`, `mark_failed(allowRetry = true)` yields status failed,
progress 100, retryCount 1 and still no `completedAt` (retry-eligible); a
subsequent `retry_job` resets to pending / progress 0 with retryCount still
1, cleared error and timestamps and `expiresAt = now + 24h`; with
`allowRetry = false`, or with the retry budget exhausted, `mark_failed`
instead sets `completedAt` (terminal). -/
theorem c8_retry_bookkeeping (j : ExportJob) (now now2 : Nat) (err : String)
    (h0 : j.retryCount = 0) (h3 : j.maxRetries = 3)
    (hc : j.completedAt = none) :
    ((j.mark_failed now err true).status = .failed ∧
     (j.mark_failed now err true).progress = 100 ∧
     (j.mark_failed now err true).retryCount = 1 ∧
     (j.mark_failed now err true).completedAt = none ∧
     (j.mark_failed now err true).can_retry = true) ∧
    ((retry_job (j.mark_failed now err true) now2).status = .pending ∧
     (retry_job (j.mark_failed now err true) now2).progress = 0 ∧
     (retry_job (j.mark_failed now err true) now2).retryCount = 1 ∧
     (retry_job (j.mark_failed now err true) now2).errorMessage = none ∧
     (retry_job (j.mark_failed now err true) now2).startedAt = none ∧
     (retry_job (j.mark_failed now err true) now2).completedAt = none ∧
     (retry_job (j.mark_failed now err true) now2).expiresAt =
       some (now2 + 86400)) ∧
    (j.mark_failed now err false).completedAt = some now ∧
    (∀ k : ExportJob, k.retryCount = k.maxRetries →
        (k.mark_failed now err true).completedAt = some now) := by
  refine ⟨?_, ?_, ?_, ?_⟩
  · simp [ExportJob.mark_failed, ExportJob.can_retry, h0, h3, hc]
  · simp [ExportJob.mark_failed, ExportJob.can_retry, retry_job, h0, h3, hc]
  · simp [ExportJob.mark_failed, ExportJob.can_retry, h0, h3]
  · intro k hk
    simp [ExportJob.mark_failed, ExportJob.can_retry, hk]

/-- Witness for C8 on a concrete freshly created job. -/
theorem c8_retry_bookkeeping_witness :
    c2Job.retryCount = 0 ∧ c2Job.maxRetries = 3 ∧ c2Job.completedAt = none ∧
    (c2Job.mark_failed 5 ("boom") true).retryCount = 1 ∧
    (c2Job.mark_failed 5 ("boom") true).completedAt = none ∧
    (retry_job (c2Job.mark_failed 5 ("boom") true) 9).status = .pending ∧
    (retry_job (c2Job.mark_failed 5 ("boom") true) 9).expiresAt =
      some (9 + 86400) ∧
    (c2Job.mark_failed 5 ("boom") false).completedAt = some 5 := by
  have h := c8_retry_bookkeeping c2Job 5 9 ("boom") (by decide) (by decide)
    (by decide)
  exact ⟨by decide, by decide, by decide, h.1.2.2.1, h.1.2.2.2.1,
         h.2.1.1, h.2.1.2.2.2.2.2.2, h.2.2.1⟩

/-! ## Claim C3: anchoring of the 2FA rate-limit window -/

/-- Rate-limit dictionary after user 7 fails five verification attempts at
t = 0, 200, 400, 600, 800 seconds (all inside one 15-minute span, so they
form a single streak whose first attempt is at t = 0). -/
def c3Trace : RLStore :=
  increment_rate_limit
    (increment_rate_limit
      (increment_rate_limit
        (increment_rate_limit (increment_rate_limit RLStore.empty 7 0) 7 200)
        7 400)
      7 600)
    7 800

/-- The C3 rate-limit predicate as the claim words it: at least 5 failed
attempts and less than 15 minutes elapsed since the FIRST attempt of the
current streak (for comparison against the code). -/
def claimRateLimited (failedAttempts firstAttempt now : Nat) : Bool :=
  decide (failedAttempts ≥ 5) && decide (now - firstAttempt < 900)

/-- Claim C3 anchors the 15-minute window at the first attempt of the
streak.  Counterexample: after the five-attempt streak of `c3Trace`
(first attempt at t = 0), a query at t = 1000 finds the stored entry stamped
with the LAST attempt time 800 — this is the code's anchor — and reports
rate-limited, while the claim's window (from the first attempt, expired at
t = 900) says the counter has reset and the user is not limited. -/
theorem c3_counterexample :
    c3Trace 7 = some ⟨5, 800⟩ ∧
    (is_rate_limited c3Trace 7 1000).1 = true ∧
    claimRateLimited 5 0 1000 = false := by
  decide

/-- Claim C3, amended: the window is anchored at the MOST RECENT failed
attempt of the streak: `is_rate_limited` reports limited exactly when the
user's entry records at least 5 attempts and at most 15 minutes have passed
since the last attempt; an entry older than that is deleted on check (lazy
reset), each failed attempt re-stamps the entry with the current time, and a
successful verification deletes the entry. -/
theorem c3_rate_limit_window (s : RLStore) (uid now : Nat) :
    ((is_rate_limited s uid now).1 = true ↔
      ∃ e, s uid = some e ∧ e.attempts ≥ 5 ∧ now - e.lastAttempt ≤ 900) ∧
    (∀ e, s uid = some e → now - e.lastAttempt > 900 →
        (is_rate_limited s uid now).2 uid = none) ∧
    (increment_rate_limit s uid now uid =
      some ⟨(match s uid with | some e => e.attempts + 1 | none => 1), now⟩) ∧
    reset_rate_limit s uid uid = none := by
  refine ⟨?_, ?_, ?_, ?_⟩
  · cases hs : s uid with
    | none =>
        simp [is_rate_limited, hs]
    | some e =>
        by_cases hexp : now - e.lastAttempt > 900
        · simp only [is_rate_limited, hs, hexp, if_pos]
          constructor
          · intro h
            exact absurd h (by simp)
          · rintro ⟨e2, he2, _, hle⟩
            injection he2 with he
            subst he
            omega
        · simp only [is_rate_limited, hs, hexp, if_neg]
          constructor
          · intro h
            exact ⟨e, rfl, by simpa using h, by omega⟩
          · rintro ⟨e2, he2, hat, _⟩
            injection he2 with he
            subst he
            simpa using hat
  · intro e hs hexp
    simp [is_rate_limited, hs, hexp, RLStore.set]
  · cases hs : s uid with
    | none => simp [increment_rate_limit, hs, RLStore.set]
    | some e => simp [increment_rate_limit, hs, RLStore.set]
  · simp [reset_rate_limit, RLStore.set]

/-- Witness for the amended C3 on the concrete `c3Trace` state. -/
theorem c3_rate_limit_window_witness :
    (is_rate_limited c3Trace 7 1000).1 = true ∧
    reset_rate_limit c3Trace 7 7 = none ∧
    increment_rate_limit c3Trace 7 1000 7 = some ⟨6, 1000⟩ :=
  ⟨((c3_rate_limit_window c3Trace 7 1000).1).mpr
      ⟨⟨5, 800⟩, by decide, by decide, by decide⟩,
   (c3_rate_limit_window c3Trace 7 1000).2.2.2,
   by
     have h := (c3_rate_limit_window c3Trace 7 1000).2.2.1
     simpa [show c3Trace 7 = some ⟨5, 800⟩ from by decide] using h⟩

/-! ## Claim C5: failed-login lockout -/

/-- The user-record effect of one wrong-password login attempt at time `t`
(the key, oracle, stores and fresh session id are irrelevant on this path). -/
def loginFailStep (u : UserRec) (t : Nat) : UserRec :=
  (login_user ("k") (fun _ _ _ => false) false u RLStore.empty PendStore.empty
    ("sid") t none).2.1

/-- The user record after five consecutive wrong-password login attempts at
times `t1 .. t5`. -/
def lockoutAfter (u : UserRec) (t1 t2 t3 t4 t5 : Nat) : UserRec :=
  loginFailStep
    (loginFailStep (loginFailStep (loginFailStep (loginFailStep u t1) t2) t3)
      t4)
    t5

/-- Claim C5: starting from a clean user (no failed attempts, no lock, 2FA
off), five consecutive wrong-password logins leave `failedLoginAttempts = 5`
and `lockedUntil = t5 + 30min`; every further login attempt strictly before
that instant — whatever the password, code, key, oracle or stores — fails
with `AccountLocked` and leaves the user unchanged; once 30 minutes have
elapsed the lock no longer applies and a correct-password login succeeds. -/
theorem c5_lockout (u : UserRec) (t1 t2 t3 t4 t5 : Nat)
    (h0 : u.failedLoginAttempts = 0) (hl : u.lockedUntil = none)
    (h2 : u.twoFactorEnabled = false) :
    (lockoutAfter u t1 t2 t3 t4 t5).failedLoginAttempts = 5 ∧
    (lockoutAfter u t1 t2 t3 t4 t5).lockedUntil = some (t5 + 1800) ∧
    (∀ (t : Nat) (pwOk : Bool) (svcKey : String)
        (totpOk : String → String → Nat → Bool) (s : RLStore) (p : PendStore)
        (sid : String) (code : Option String), t < t5 + 1800 →
        (login_user svcKey totpOk pwOk (lockoutAfter u t1 t2 t3 t4 t5) s p sid
            t code).1 = .error .accountLocked ∧
        (login_user svcKey totpOk pwOk (lockoutAfter u t1 t2 t3 t4 t5) s p sid
            t code).2.1 = lockoutAfter u t1 t2 t3 t4 t5) ∧
    (∀ (t : Nat) (svcKey : String) (totpOk : String → String → Nat → Bool)
        (s : RLStore) (p : PendStore) (sid : String), t5 + 1800 ≤ t →
        (login_user svcKey totpOk true (lockoutAfter u t1 t2 t3 t4 t5) s p sid
            t none).1 = .ok (.authenticated true)) := by
  have hu5 : (lockoutAfter u t1 t2 t3 t4 t5).failedLoginAttempts = 5 ∧
      (lockoutAfter u t1 t2 t3 t4 t5).lockedUntil = some (t5 + 1800) ∧
      (lockoutAfter u t1 t2 t3 t4 t5).twoFactorEnabled = false := by
    simp [lockoutAfter, loginFailStep, login_user, is_account_locked,
          increment_failed_login, h0, hl, h2]
  refine ⟨hu5.1, hu5.2.1, ?_, ?_⟩
  · intro t pwOk svcKey totpOk s p sid code ht
    have hlock : is_account_locked (lockoutAfter u t1 t2 t3 t4 t5) t = true := by
      simp [is_account_locked, hu5.2.1]
      omega
    constructor <;> simp [login_user, hlock]
  · intro t svcKey totpOk s p sid ht
    have hlock : is_account_locked (lockoutAfter u t1 t2 t3 t4 t5) t = false := by
      simp [is_account_locked, hu5.2.1]
      omega
    simp [login_user, hlock, hu5.2.2]

/-- A clean user (no failures, no lock, 2FA off) for the C5 witness. -/
def c5User : UserRec :=
  { id := 1, username := ("alice"), twoFactorEnabled := false,
    twoFactorSecret := none, backupCodes := none, backupCodesUsed := [],
    failedLoginAttempts := 0, lockedUntil := none }

/-- Witness for C5: five wrong passwords at t = 0..4 lock the account; at
t = 100 even the correct password is rejected with `AccountLocked`; at
t = 1804 (= 4 + 30min) the correct password logs in. -/
theorem c5_lockout_witness :
    c5User.failedLoginAttempts = 0 ∧ c5User.lockedUntil = none ∧
    c5User.twoFactorEnabled = false ∧
    (lockoutAfter c5User 0 1 2 3 4).lockedUntil = some (4 + 1800) ∧
    (login_user ("k") (fun _ _ _ => false) true (lockoutAfter c5User 0 1 2 3 4)
        RLStore.empty PendStore.empty ("sid") 100 none).1 =
      .error .accountLocked ∧
    (login_user ("k") (fun _ _ _ => false) true (lockoutAfter c5User 0 1 2 3 4)
        RLStore.empty PendStore.empty ("sid") 1804 none).1 =
      .ok (.authenticated true) := by
  have h := c5_lockout c5User 0 1 2 3 4 rfl rfl rfl
  exact ⟨rfl, rfl, rfl, h.2.1,
         (h.2.2.1 100 true ("k") (fun _ _ _ => false) RLStore.empty
             PendStore.empty ("sid") none (by omega)).1,
         h.2.2.2 1804 ("k") (fun _ _ _ => false) RLStore.empty PendStore.empty
           ("sid") (by omega)⟩

/-! ## Claim C6: backup codes are single-use -/

/-- Claim C6: for a 2FA-enabled user, a successful verification with a valid,
unused backup code appends the code to the used set, and a later
`verify_two_factor` call with the same code returns false (the code is in the
backup list but now also in the used list; it is not a valid TOTP code at
either time). -/
theorem c6_backup_code_single_use (svcKey sec code : String)
    (totpOk : String → String → Nat → Bool) (u : UserRec) (s : RLStore)
    (now now2 : Nat) (codes : List String)
    (hen : u.twoFactorEnabled = true)
    (hsec : u.twoFactorSecret = some (.token svcKey sec))
    (hbc : u.backupCodes = some (.token svcKey codes))
    (hmem : code ∈ codes) (hunused : code ∉ u.backupCodesUsed)
    (ht1 : totpOk sec code now = false) (ht2 : totpOk sec code now2 = false)
    (hnolimit : (is_rate_limited s u.id now).1 = false) :
    verify_two_factor svcKey totpOk u s now code =
      (.ok true, { u with backupCodesUsed := u.backupCodesUsed ++ [code] },
       reset_rate_limit (is_rate_limited s u.id now).2 u.id) ∧
    code ∈ ({ u with backupCodesUsed := u.backupCodesUsed ++ [code] }
        : UserRec).backupCodesUsed ∧
    (verify_two_factor svcKey totpOk
        { u with backupCodesUsed := u.backupCodesUsed ++ [code] }
        (reset_rate_limit (is_rate_limited s u.id now).2 u.id) now2 code).1 =
      .ok false := by
  refine ⟨?_, by simp, ?_⟩
  · simp [verify_two_factor, hen, hsec, hbc, hnolimit, ht1, hmem, hunused,
          Fernet.decrypt, decrypt_backup_codes]
  · simp [verify_two_factor, hen, hsec, hbc, ht2, Fernet.decrypt,
          decrypt_backup_codes, is_rate_limited, reset_rate_limit,
          RLStore.set]

/-- A 2FA-enabled user holding one backup code, for the C6 witness. -/
def c6User : UserRec :=
  { id := 1, username := ("alice"), twoFactorEnabled := true,
    twoFactorSecret := some (.token ("K") ("S")),
    backupCodes := some (.token ("K") [("AB12CD34")]),
    backupCodesUsed := [], failedLoginAttempts := 0, lockedUntil := none }

/-- Witness for C6: the concrete backup code succeeds once and fails on
reuse. -/
theorem c6_backup_code_single_use_witness :
    (verify_two_factor ("K") (fun _ _ _ => false) c6User RLStore.empty 0
        ("AB12CD34")).1 = .ok true ∧
    (verify_two_factor ("K") (fun _ _ _ => false)
        { c6User with backupCodesUsed := [("AB12CD34")] }
        (reset_rate_limit (is_rate_limited RLStore.empty c6User.id 0).2
          c6User.id) 10 ("AB12CD34")).1 = .ok false := by
  have h := c6_backup_code_single_use ("K") ("S") ("AB12CD34")
    (fun _ _ _ => false) c6User RLStore.empty 0 10 [("AB12CD34")]
    rfl rfl rfl (by decide) (by decide) rfl rfl (by decide)
  refine ⟨by rw [h.1], ?_⟩
  have h2 := h.2.2
  simpa [c6User] using h2

/-! ## Claim C4: surfacing of the rate-limited state during login -/

/-- A 2FA-enabled user for the C4 failing input. -/
def c4User : UserRec :=
  { id := 1, username := ("alice"), twoFactorEnabled := true,
    twoFactorSecret := some (.token ("K") ("S")),
    backupCodes := some (.token ("K") [("AAAA1111")]),
    backupCodesUsed := [], failedLoginAttempts := 0, lockedUntil := none }

/-- Rate-limit dictionary in which user 1 has 5 failed attempts, the last one
at t = 1000 (the current instant): the rate limit is in force. -/
def c4Limited : RLStore := RLStore.set RLStore.empty 1 (some ⟨5, 1000⟩)

/-- A TOTP oracle that accepts everything: the submitted code is VALID. -/
def c4Totp : String → String → Nat → Bool := fun _ _ _ => true

/-- The `USERS` dictionary holding the C4 user. -/
def c4Users : UserStore := UserStore.set (fun _ => none) ("alice") (some c4User)

/-- A pending 2FA session for the C4 user, unexpired at t = 1000. -/
def c4Pend : PendStore :=
  PendStore.set PendStore.empty ("sess") (some ⟨1, ("alice"), 1200⟩)

/-- Claim C4 states that a rate-limited login attempt with a TOTP code (and a
`complete_2fa_login` call) surfaces a distinct `RateLimited` condition.  The
code violates it: `TwoFactorService.verify_two_factor` does raise the
distinct rate-limited error, but `AuthService.verify_2fa_code` catches every
exception and returns `False`, so both `login_user` (correct password, valid
code) and `complete_2fa_login` (valid session, valid code) raise the uniform
invalid-two-factor-code error — indistinguishable from a wrong code. -/
theorem c4_rate_limit_not_surfaced :
    (verify_two_factor ("K") c4Totp c4User c4Limited 1000 ("123456")).1 =
      .rateLimited ∧
    (verify_2fa_code ("K") c4Totp c4User c4Limited 1000 ("123456")).1 =
      false ∧
    (login_user ("K") c4Totp true c4User c4Limited PendStore.empty ("sid")
        1000 (some ("123456"))).1 = .error .invalidTwoFactorCode ∧
    (complete_2fa_login ("K") c4Totp c4Users c4Pend c4Limited 1000 ("sess")
        ("123456")).1 = .error .invalidTwoFactorCode := by
  refine ⟨rfl, rfl, rfl, rfl⟩

/-! ## Claim C10: a failed code does not consume the pending 2FA session -/

/-- Helper: `increment_failed_login` changes only the counter and the lock. -/
theorem increment_failed_login_preserves (u : UserRec) (now : Nat) :
    (increment_failed_login u now).id = u.id ∧
    (increment_failed_login u now).twoFactorEnabled = u.twoFactorEnabled ∧
    (increment_failed_login u now).twoFactorSecret = u.twoFactorSecret ∧
    (increment_failed_login u now).backupCodes = u.backupCodes ∧
    (increment_failed_login u now).failedLoginAttempts =
      u.failedLoginAttempts + 1 := by
  by_cases h : u.failedLoginAttempts + 1 ≥ 5 <;>
    simp [increment_failed_login, h]

/-- Claim C10: with a stored, unexpired pending session for an existing
2FA-enabled user, `complete_2fa_login` with an invalid code raises the
invalid-code error, increments `failedLoginAttempts`, and leaves the
pending-session entry in place; a later call with the same session id and a
valid code succeeds (and only then removes the entry); in general the entry
at the looked-up session id changes only when the call succeeds, the session
is expired, or the user is missing. -/
theorem c10_failed_code_keeps_session (svcKey sec : String)
    (totpOk : String → String → Nat → Bool) (users : UserStore)
    (p : PendStore) (s : RLStore) (sid code code2 : String)
    (sess : PendingSession) (u : UserRec) (now now2 : Nat)
    (hp : p sid = some sess) (hexp : now ≤ sess.expiresAt)
    (huser : users sess.username = some u)
    (hen : u.twoFactorEnabled = true)
    (hsec : u.twoFactorSecret = some (.token svcKey sec))
    (hbc : u.backupCodes = none) (hnorl : s u.id = none)
    (hbad : totpOk sec code now = false)
    (hgood : totpOk sec code2 now2 = true)
    (hexp2 : now2 ≤ sess.expiresAt) :
    (complete_2fa_login svcKey totpOk users p s now sid code).1 =
      .error .invalidTwoFactorCode ∧
    (complete_2fa_login svcKey totpOk users p s now sid code).2.1
        sess.username = some (increment_failed_login u now) ∧
    (increment_failed_login u now).failedLoginAttempts =
      u.failedLoginAttempts + 1 ∧
    (complete_2fa_login svcKey totpOk users p s now sid code).2.2.1 sid =
      some sess ∧
    (complete_2fa_login svcKey totpOk
        (complete_2fa_login svcKey totpOk users p s now sid code).2.1
        (complete_2fa_login svcKey totpOk users p s now sid code).2.2.1
        (complete_2fa_login svcKey totpOk users p s now sid code).2.2.2
        now2 sid code2).1 = .ok () ∧
    (complete_2fa_login svcKey totpOk
        (complete_2fa_login svcKey totpOk users p s now sid code).2.1
        (complete_2fa_login svcKey totpOk users p s now sid code).2.2.1
        (complete_2fa_login svcKey totpOk users p s now sid code).2.2.2
        now2 sid code2).2.2.1 sid = none ∧
    (∀ (users2 : UserStore) (p2 : PendStore) (s2 : RLStore) (n2 : Nat)
        (sid2 code3 : String),
        (complete_2fa_login svcKey totpOk users2 p2 s2 n2 sid2 code3).2.2.1
            sid2 ≠ p2 sid2 →
        (complete_2fa_login svcKey totpOk users2 p2 s2 n2 sid2 code3).1 =
            .ok () ∨
        (complete_2fa_login svcKey totpOk users2 p2 s2 n2 sid2 code3).1 =
            .error .sessionExpired ∨
        (complete_2fa_login svcKey totpOk users2 p2 s2 n2 sid2 code3).1 =
            .error .userNotFound) := by
  have hne : ¬ now > sess.expiresAt := Nat.not_lt.mpr hexp
  have hne2 : ¬ now2 > sess.expiresAt := Nat.not_lt.mpr hexp2
  have hv1 : verify_2fa_code svcKey totpOk u s now code =
      (false, u, increment_rate_limit s u.id now) := by
    simp [verify_2fa_code, verify_two_factor, hen, hsec, hbc, hnorl, hbad,
          is_rate_limited, Fernet.decrypt, decrypt_backup_codes]
  have hr1 : complete_2fa_login svcKey totpOk users p s now sid code =
      (.error .invalidTwoFactorCode,
       users.set sess.username (some (increment_failed_login u now)), p,
       increment_rate_limit s u.id now) := by
    simp [complete_2fa_login, hp, hne, huser, hv1]
  have hpres := increment_failed_login_preserves u now
  have hs1 : increment_rate_limit s u.id now u.id = some ⟨1, now⟩ := by
    simp [increment_rate_limit, hnorl, RLStore.set]
  have hrl2 :
      (is_rate_limited (increment_rate_limit s u.id now) u.id now2).1 =
        false := by
    by_cases hgap : now2 - now > 900 <;>
      simp [is_rate_limited, hs1, hgap]
  have hv2 : (verify_2fa_code svcKey totpOk (increment_failed_login u now)
      (increment_rate_limit s u.id now) now2 code2).1 = true ∧
      (verify_2fa_code svcKey totpOk (increment_failed_login u now)
        (increment_rate_limit s u.id now) now2 code2).2.1 =
        increment_failed_login u now := by
    constructor <;>
      simp [verify_2fa_code, verify_two_factor, hpres.1, hpres.2.1,
            hpres.2.2.1, hen, hsec, hrl2, hgood, Fernet.decrypt]
  have husers1 : (users.set sess.username
      (some (increment_failed_login u now))) sess.username =
      some (increment_failed_login u now) := by
    simp [UserStore.set]
  have hr2 : (complete_2fa_login svcKey totpOk
      (users.set sess.username (some (increment_failed_login u now))) p
      (increment_rate_limit s u.id now) now2 sid code2).1 = .ok () ∧
      (complete_2fa_login svcKey totpOk
        (users.set sess.username (some (increment_failed_login u now))) p
        (increment_rate_limit s u.id now) now2 sid code2).2.2.1 sid =
        none := by
    rcases hvq : verify_2fa_code svcKey totpOk (increment_failed_login u now)
        (increment_rate_limit s u.id now) now2 code2 with ⟨b, u3, s3⟩
    rw [hvq] at hv2
    obtain ⟨hb, _⟩ := hv2
    simp only [] at hb
    subst hb
    constructor <;>
      simp [complete_2fa_login, hp, hne2, husers1, hvq, PendStore.set]
  refine ⟨by rw [hr1], ?_, hpres.2.2.2.2, by rw [hr1]; exact hp, ?_, ?_, ?_⟩
  · rw [hr1]
    simp [UserStore.set]
  · rw [hr1]
    exact hr2.1
  · rw [hr1]
    exact hr2.2
  · intro users2 p2 s2 n2 sid2 code3 hch
    cases hp2 : p2 sid2 with
    | none =>
        exfalso
        apply hch
        simp [complete_2fa_login, hp2]
    | some ss =>
        by_cases hex : n2 > ss.expiresAt
        · right; left
          simp [complete_2fa_login, hp2, hex]
        · cases hu2 : users2 ss.username with
          | none =>
              right; right
              simp [complete_2fa_login, hp2, hex, hu2]
          | some uu =>
              rcases hb : verify_2fa_code svcKey totpOk uu s2 n2 code3 with
                ⟨b, u3, s3⟩
              cases b
              · exfalso
                apply hch
                simp [complete_2fa_login, hp2, hex, hu2, hb]
              · left
                simp [complete_2fa_login, hp2, hex, hu2, hb]

/-- TOTP oracle for the C10 witness: exactly one code is currently valid. -/
def c10Totp : String → String → Nat → Bool := fun _ c _ => c == ("222222")

/-- A 2FA-enabled user for the C10 witness. -/
def c10User : UserRec :=
  { id := 1, username := ("alice"), twoFactorEnabled := true,
    twoFactorSecret := some (.token ("K") ("S")), backupCodes := none,
    backupCodesUsed := [], failedLoginAttempts := 0, lockedUntil := none }

/-- The `USERS` dictionary holding the C10 user. -/
def c10Users : UserStore :=
  UserStore.set (fun _ => none) ("alice") (some c10User)

/-- A pending session for the C10 user, expiring at t = 400. -/
def c10Pend : PendStore :=
  PendStore.set PendStore.empty ("sess") (some ⟨1, ("alice"), 400⟩)

/-- Witness for C10: a wrong code at t = 10 errors but keeps the session; the
valid code at t = 20 then completes the login. -/
theorem c10_failed_code_keeps_session_witness :
    (complete_2fa_login ("K") c10Totp c10Users c10Pend RLStore.empty 10
        ("sess") ("111111")).1 = .error .invalidTwoFactorCode ∧
    (complete_2fa_login ("K") c10Totp c10Users c10Pend RLStore.empty 10
        ("sess") ("111111")).2.2.1 ("sess") =
      some ⟨1, ("alice"), 400⟩ ∧
    (complete_2fa_login ("K") c10Totp
        (complete_2fa_login ("K") c10Totp c10Users c10Pend RLStore.empty 10
            ("sess") ("111111")).2.1
        (complete_2fa_login ("K") c10Totp c10Users c10Pend RLStore.empty 10
            ("sess") ("111111")).2.2.1
        (complete_2fa_login ("K") c10Totp c10Users c10Pend RLStore.empty 10
            ("sess") ("111111")).2.2.2
        20 ("sess") ("222222")).1 = .ok () := by
  have h := c10_failed_code_keeps_session ("K") ("S") c10Totp c10Users
    c10Pend RLStore.empty ("sess") ("111111") ("222222") ⟨1, ("alice"), 400⟩
    c10User 10 20 rfl (by decide) rfl rfl rfl rfl rfl (by decide) (by decide)
    (by decide)
  exact ⟨h.1, h.2.2.2.1, h.2.2.2.2.1⟩

end Outlier
